import Mathlib

/-!
Verification of the multi-camera smart-scheduling and alerting engine of the
HSE Guardian AI dashboard. Definitions are shallow embeddings of
src/components/Monitor.tsx (hazard filter, alert state machine, SMS cooldown,
smart camera scheduler, busy flag) and of src/unnamed/part_002 (the
geminiService revision with the request timeout watchdog).
-/

namespace HSEGuardian

/-- Hazard category enum, from src/types.ts. -/
inductive Category where
  | PPE | MACHINERY | HOUSEKEEPING | FIRE | BEHAVIOR | OTHER
deriving DecidableEq, Repr

/-- Severity enum, from src/types.ts, ordered SAFE < LOW < MEDIUM < HIGH. -/
inductive Severity where
  | SAFE | LOW | MEDIUM | HIGH
deriving DecidableEq, Repr

/-- Alert trigger setting, from Monitor.tsx line 11. -/
inductive SeverityTrigger where
  | OFF | LOW | MEDIUM | HIGH
deriving DecidableEq, Repr

/-- One detected hazard, from src/types.ts. The fields not used by the
scheduling and alerting core (description, recommendation, box_2d) are
omitted; `confidence` is optional because Monitor.tsx line 351 explicitly
handles an undefined confidence. -/
structure Hazard where
  type : String
  category : Category
  severity : Severity
  confidence : Option Int
deriving DecidableEq, Repr

/-- One analysis result, from src/types.ts. `safetyScore` is an Int because
the timeout sentinel is -1. -/
structure SafetyAnalysis where
  timestamp : String
  safetyScore : Int
  hazards : List Hazard
  summary : String
  isSafe : Bool
deriving DecidableEq, Repr

/-- JavaScript `record[k] || d` on a numeric record: both a missing key and a
stored 0 are falsy and fall back to the default `d`. -/
def jsOr (v : Option Int) (d : Int) : Int :=
  match v with
  | none => d
  | some n => if n = 0 then d else n

/-- Confidence defaulting, Monitor.tsx line 351:
`h.confidence !== undefined ? h.confidence : 100`. -/
def confOf (h : Hazard) : Int :=
  match h.confidence with
  | some c => c
  | none => 100

/-- The hazard filter plus local isSafe recomputation performed inside
captureAndAnalyze, Monitor.tsx lines 349-361. -/
def filterAnalysis (thresholds : Category → Option Int)
    (result : SafetyAnalysis) : SafetyAnalysis :=
  let filteredHazards := result.hazards.filter (fun h =>
    let threshold := jsOr (thresholds h.category) 50
    decide (confOf h ≥ threshold))
  { result with
    hazards := filteredHazards,
    isSafe := decide (filteredHazards.length = 0 ∧ result.safetyScore > 80) }

/-- The per-category default thresholds of the settings panel,
Monitor.tsx lines 70-77. -/
def defaultCategoryThresholds : Category → Option Int :=
  fun c => some (match c with
    | .PPE => 60
    | .MACHINERY => 70
    | .HOUSEKEEPING => 50
    | .FIRE => 60
    | .BEHAVIOR => 50
    | .OTHER => 50)

/-- Alert configuration, Monitor.tsx lines 13-21 (preRoll is not part of the
alerting core). -/
structure AlertSettings where
  minSafetyScore : Int
  minSeverityTrigger : SeverityTrigger
  soundEnabled : Bool
  smsEnabled : Bool
  phoneNumber : String
  categoryThresholds : Category → Option Int

/-- The initial settings value, Monitor.tsx lines 63-78. -/
def defaultAlertSettings : AlertSettings :=
  { minSafetyScore := 60
    minSeverityTrigger := .HIGH
    soundEnabled := true
    smsEnabled := false
    phoneNumber := ""
    categoryThresholds := defaultCategoryThresholds }

/-- `severityMap` of checkAlerts, Monitor.tsx line 175 (the `|| 0` fallback
maps SAFE to 0 as the stored value 0 is falsy). -/
def severityMapJs (sev : Severity) : Int :=
  match sev with
  | .SAFE => 0
  | .LOW => 1
  | .MEDIUM => 2
  | .HIGH => 3

/-- Maximum severity of the hazards of an analysis, the forEach loop of
checkAlerts, Monitor.tsx lines 178-181. -/
def maxSeverityOf (hazards : List Hazard) : Int :=
  hazards.foldl (fun m h =>
    if severityMapJs h.severity > m then severityMapJs h.severity else m) 0

/-- `triggerThresholds` of checkAlerts, Monitor.tsx lines 190-195. -/
def triggerThreshold : SeverityTrigger → Int
  | .OFF => 99
  | .LOW => 1
  | .MEDIUM => 2
  | .HIGH => 3

/-- The mutable state read and written by checkAlerts: the alert state
machine flags and the SMS cooldown timestamp (lastSmsTimeRef). -/
structure CheckState where
  isAlertActive : Bool
  isSilenced : Bool
  lastSmsTime : Int
deriving DecidableEq, Repr

/-- The outcome of one checkAlerts call: the new state, whether the SMS side
effect fired, and the per-camera max severity written to cameraHazardLevel. -/
structure CheckResult where
  isAlertActive : Bool
  isSilenced : Bool
  lastSmsTime : Int
  smsSent : Bool
  maxSeverity : Int
deriving DecidableEq, Repr

/-- The SMS cooldown constant, Monitor.tsx line 205 (5 minutes in ms). -/
def smsCooldown : Int := 300000

/-- checkAlerts, Monitor.tsx lines 165-225, with `now` standing for
Date.now(). Mirrors the source order: score check, max severity fold,
severity trigger check, SMS block, alarm transition. -/
def checkAlerts (st : AlertSettings) (now : Int) (s : CheckState)
    (analysis : SafetyAnalysis) : CheckResult :=
  let shouldTriggerScore := decide (analysis.safetyScore < st.minSafetyScore)
  let maxSeverity := maxSeverityOf analysis.hazards
  let userThreshold := triggerThreshold st.minSeverityTrigger
  let shouldTrigger := shouldTriggerScore ||
    (decide (userThreshold < 99) && decide (maxSeverity ≥ userThreshold))
  let criticalHazards := analysis.hazards.filter (fun h =>
    decide (h.severity = .HIGH))
  let smsSent := st.smsEnabled && (st.phoneNumber ≠ "") &&
    decide (criticalHazards.length > 0) &&
    decide (now - s.lastSmsTime > smsCooldown)
  let lastSmsTime := if smsSent then now else s.lastSmsTime
  let isAlertActive :=
    if shouldTrigger && !s.isAlertActive && !s.isSilenced then true
    else s.isAlertActive
  { isAlertActive := isAlertActive
    isSilenced := s.isSilenced
    lastSmsTime := lastSmsTime
    smsSent := smsSent
    maxSeverity := maxSeverity }

/-- Project the state part out of a checkAlerts result. -/
def CheckResult.toState (r : CheckResult) : CheckState :=
  { isAlertActive := r.isAlertActive
    isSilenced := r.isSilenced
    lastSmsTime := r.lastSmsTime }

/-- One completed capture-and-analyze cycle on a raw gateway result, as wired
in Monitor.tsx lines 344-369: the confidence filter runs first, then
checkAlerts is applied to the filtered result. -/
def processCycle (st : AlertSettings) (now : Int) (s : CheckState)
    (raw : SafetyAnalysis) : CheckResult :=
  checkAlerts st now s (filterAnalysis st.categoryThresholds raw)

/-- The spec formulation of the alarm condition of claim C2: score breach, or
max severity at or above the configured trigger where the trigger OFF never
fires. Written from the spec words, to be compared with checkAlerts. -/
def alarmCondSpec (st : AlertSettings) (analysis : SafetyAnalysis) : Prop :=
  analysis.safetyScore < st.minSafetyScore ∨
    (st.minSeverityTrigger ≠ .OFF ∧
      maxSeverityOf analysis.hazards ≥ triggerThreshold st.minSeverityTrigger)

instance (st : AlertSettings) (a : SafetyAnalysis) :
    Decidable (alarmCondSpec st a) := by
  unfold alarmCondSpec; infer_instance

/-- The threshold lookup exactly as claim C4 words it: the mapped value when
the category is mapped, 50 only when it is unmapped. Written from the spec
words, to be compared with the jsOr lookup the source performs. -/
def claimedThreshold (thresholds : Category → Option Int) (c : Category) : Int :=
  (thresholds c).getD 50

/-- The effective threshold stated by the amended claim C4: the mapped value
when it is nonzero, 50 when the category is unmapped or mapped to 0. -/
def amendedThreshold (thresholds : Category → Option Int) (c : Category) : Int :=
  match thresholds c with
  | some n => if n ≠ 0 then n else 50
  | none => 50

/-- The default thresholds with the PPE slider moved to its minimum 0
(reachable through the settings panel, Monitor.tsx lines 511-523). -/
def thrPpeZero : Category → Option Int :=
  fun c => if c = .PPE then some 0 else defaultCategoryThresholds c

/-- Run checkAlerts over a time-stamped sequence of completed analyses,
threading the state, and collect the timestamps at which the SMS side
effect fired. -/
def smsRun (st : AlertSettings) :
    List (Int × SafetyAnalysis) → CheckState → List Int
  | [], _ => []
  | (t, a) :: rest, s =>
    let r := checkAlerts st t s a
    if r.smsSent then t :: smsRun st rest r.toState
    else smsRun st rest r.toState

/-- Settings with the SMS channel switched on, for the cooldown scenario. -/
def smsDemoSettings : AlertSettings :=
  { defaultAlertSettings with smsEnabled := true, phoneNumber := "+15550100" }

/-- A frame whose analysis carries one HIGH severity hazard that survives
the default confidence filter. -/
def highHazardFrame : SafetyAnalysis :=
  ⟨"t", 20, [⟨"Fire outbreak", .FIRE, .HIGH, some 95⟩], "s", false⟩

/-- Qualifying frames every 5 seconds for 10 minutes. -/
def demoTicks : List (Int × SafetyAnalysis) :=
  (List.range 121).map (fun k => (1000000 + 5000 * (k : Int), highHazardFrame))

/-- Settings for the C6 counterexample: SMS on, default thresholds. -/
def c6Settings : AlertSettings :=
  { defaultAlertSettings with smsEnabled := true, phoneNumber := "+15550100" }

/-- Raw gateway result for the C6 counterexample: one HIGH severity PPE
hazard whose confidence 10 is below the PPE threshold 60. -/
def c6Raw : SafetyAnalysis :=
  ⟨"t", 90, [⟨"No Helmet", .PPE, .HIGH, some 10⟩], "s", false⟩

/-- Events observed by the analysis loop of captureAndAnalyze: a timer tick
(with or without an available frame on the chosen webcam) or the completion
of one pending gateway call (the finally block of that invocation, on
success or error). -/
inductive MEvent where
  | tick (frame : Bool)
  | finish
deriving DecidableEq, Repr

/-- Gateway call bookkeeping of one monitoring session: how many calls were
started and how many are still unresolved. -/
structure LoopCalls where
  callsStarted : Nat
  callsInFlight : Nat
deriving DecidableEq, Repr

/-- One event of the real analysis loop. setInterval (Monitor.tsx line 409)
permanently registers the single captureAndAnalyze closure created when
monitoring starts, and no effect ever re-registers it, so the guard at line
319 reads `isAnalyzingAtStart`, the isAnalyzing value frozen into that
closure at monitoring start, never the current flag. A tick that passes the
frozen guard with a frame available starts a gateway call (line 344); each
completion resolves one call (the finally block of its own invocation,
lines 386-388). -/
def staleTick (activeCams : Nat) (isAnalyzingAtStart : Bool)
    (s : LoopCalls) : MEvent → LoopCalls
  | .tick frame =>
    if activeCams = 0 ∨ isAnalyzingAtStart = true then s
    else if frame then
      { callsStarted := s.callsStarted + 1
        callsInFlight := s.callsInFlight + 1 }
    else s
  | .finish => { s with callsInFlight := s.callsInFlight - 1 }

/-- Run the frozen-closure loop over a list of events. -/
def staleRun (activeCams : Nat) (isAnalyzingAtStart : Bool) :
    List MEvent → LoopCalls → LoopCalls
  | [], s => s
  | e :: evs, s =>
    staleRun activeCams isAnalyzingAtStart evs
      (staleTick activeCams isAnalyzingAtStart s e)

/-- The forEach loop of getNextSmartCamera, Monitor.tsx lines 296-312:
each camera's priority is seconds since its last check plus 15 times its
stored hazard level (both record lookups default to 0), and the running
best candidate is replaced only on a strictly greater priority. Priorities
are rationals because the source divides milliseconds by 1000 before
comparing. -/
def selectLoop (now : Int) (lastCheck hazardLevel : String → Option Int) :
    List String → String × ℚ → String × ℚ
  | [], best => best
  | id :: rest, best =>
    let lastCheckMs : Int := jsOr (lastCheck id) 0
    let secondsSinceCheck : ℚ := ((now : ℚ) - (lastCheckMs : ℚ)) / 1000
    let hazardWeight : ℚ := ((jsOr (hazardLevel id) 0 : Int) : ℚ) * 15
    let priority := secondsSinceCheck + hazardWeight
    if priority > best.2 then
      selectLoop now lastCheck hazardLevel rest (id, priority)
    else
      selectLoop now lastCheck hazardLevel rest best

/-- getNextSmartCamera, Monitor.tsx lines 288-315: empty active set gives
the empty id, a single camera is always selected, otherwise the highest
priority camera wins with the initial best candidate being the first id at
priority -1. -/
def getNextSmartCamera (now : Int)
    (lastCheck hazardLevel : String → Option Int)
    (activeDeviceIds : List String) : String :=
  match activeDeviceIds with
  | [] => ""
  | [single] => single
  | first :: _ =>
    (selectLoop now lastCheck hazardLevel activeDeviceIds (first, -1)).1

/-- C7 scenario record: camera A is SAFE and 60 seconds stale, camera B is
HIGH and was checked just now. -/
def lcC7 : String → Option Int :=
  fun id => if id = "A" then some 0 else if id = "B" then some 60000 else none

/-- Hazard levels for the C7 scenario: B at level 3 (HIGH), A at 0. -/
def hzC7 : String → Option Int :=
  fun id => if id = "B" then some 3 else some 0

/-- The three-camera fleet of the C8 fairness scenario. -/
def cams3 : List String := ["A", "B", "C"]

/-- The monitoring-start cameraLastCheckTime and cameraHazardLevel records:
both are empty, so every lookup is undefined and the `|| 0` fallback gives
0. The interval closure registered at Monitor.tsx line 409 captures the
getNextSmartCamera closure of that render, which reads these records
forever: setCameraLastCheckTime (line 367) and setCameraHazardLevel (line
184) update later renders only, never the registered closure. -/
def emptyRecord : String → Option Int := fun _ => none

/-- JavaScript String.prototype.includes, over character lists. -/
def charListIncludes (sub : List Char) : List Char → Bool
  | [] => sub.isEmpty
  | c :: rest => sub.isPrefixOf (c :: rest) || charListIncludes sub rest

/-- JavaScript `s.includes(sub)`. -/
def strIncludes (s sub : String) : Bool :=
  charListIncludes sub.toList s.toList

/-- Possible resolutions of the raced gateway request inside
analyzeSafetyImage, src/unnamed/part_002 lines 96-122: a response whose text
may be empty, the 15 second watchdog timeout of withTimeout, or a thrown
error carrying a message. -/
inductive CallOutcome where
  | response (text : Option SafetyAnalysis)
  | timeout
  | failure (msg : String)

/-- The catch block of analyzeSafetyImage, src/unnamed/part_002 lines
124-156: an UNAUTHORIZED message gives the license error result, the
REQUEST_TIMEOUT message gives the inconclusive sentinel (score -1, assumed
safe, no hazards), anything else gives the generic zero-score error result. -/
def catchHandler (ts : String) (msg : String) : SafetyAnalysis :=
  if strIncludes msg "UNAUTHORIZED" then
    ⟨ts, 0, [], "خطای امنیتی: لایسنس نامعتبر.", false⟩
  else if msg = "REQUEST_TIMEOUT" then
    ⟨ts, -1, [], "تاخیر در ارتباط با شبکه...", true⟩
  else
    ⟨ts, 0, [], "خطا در پردازش تصویر.", false⟩

/-- analyzeSafetyImage, src/unnamed/part_002 lines 81-157: the license check
throws UNAUTHORIZED_ACCESS, a missing API key throws before the call, a
successful response is parsed and stamped, an empty response throws, and
every thrown message lands in the catch block, so the function always
returns a SafetyAnalysis (it never rejects). -/
def analyzeSafetyImage (licenseOk hasApiKey : Bool) (ts : String)
    (call : CallOutcome) : SafetyAnalysis :=
  if !licenseOk then catchHandler ts "UNAUTHORIZED_ACCESS"
  else if !hasApiKey then catchHandler ts "API Key not configured"
  else
    match call with
    | .response (some data) => { data with timestamp := ts }
    | .response none => catchHandler ts "Empty response from AI"
    | .timeout => catchHandler ts "REQUEST_TIMEOUT"
    | .failure m => catchHandler ts m

end HSEGuardian

namespace HSEGuardian

/-- C1: for every completed, filtered analysis result the derived isSafe
flag is true iff the filtered hazards list is empty and safetyScore > 80;
the gateway's own isSafe value has no influence on the filtered result. -/
theorem c1_isSafe_recomputed (thr : Category → Option Int) (r : SafetyAnalysis) :
    ((filterAnalysis thr r).isSafe = true ↔
      (filterAnalysis thr r).hazards = [] ∧ r.safetyScore > 80)
    ∧ (∀ b : Bool, filterAnalysis thr { r with isSafe := b } = filterAnalysis thr r) := by
  constructor
  · simp [filterAnalysis, List.length_eq_zero]
  · intro b; rfl

/-- The jsOr lookup with default 50 agrees with the amended-claim effective
threshold. -/
lemma jsOr_eq_amendedThreshold (thr : Category → Option Int) (c : Category) :
    jsOr (thr c) 50 = amendedThreshold thr c := by
  unfold jsOr amendedThreshold
  cases thr c with
  | none => rfl
  | some n => by_cases h : n = 0 <;> simp [h]

/-- C2: the alert state machine transitions into ACTIVE exactly when the
filtered analysis satisfies the alarm condition (score below minSafetyScore,
or max hazard severity at or above the trigger with trigger OFF never
firing) and the machine is IDLE (neither active nor silenced); plus the two
spec scenarios at minSafetyScore 60 and trigger HIGH. -/
theorem c2_alert_transition (st : AlertSettings) (now : Int) (s : CheckState)
    (analysis : SafetyAnalysis) :
    (((checkAlerts st now s analysis).isAlertActive = true ∧
        s.isAlertActive = false) ↔
      (alarmCondSpec st analysis ∧ s.isAlertActive = false ∧
        s.isSilenced = false))
    ∧ (checkAlerts defaultAlertSettings 0 ⟨false, false, 0⟩
        ⟨"t", 55, [], "s", false⟩).isAlertActive = true
    ∧ (checkAlerts defaultAlertSettings 0 ⟨false, false, 0⟩
        ⟨"t", 90, [⟨"h", .OTHER, .LOW, some 80⟩], "s", true⟩).isAlertActive
        = false := by
  refine ⟨?_, by decide, by decide⟩
  rcases s with ⟨a, sil, last⟩
  rcases st with ⟨minScore, trig, snd, sms, ph, cat⟩
  cases a <;> cases sil <;> cases trig <;>
    simp [checkAlerts, alarmCondSpec, triggerThreshold]

/-- C4 counterexample: with the PPE threshold configured to 0 and a PPE
hazard of confidence 30, the claim as stated predicts the hazard is kept
(30 is at least the claimed threshold 0), but the filter removes it. -/
theorem c4_counterexample :
    (⟨"Missing Helmet", .PPE, .LOW, some 30⟩ : Hazard) ∈
      (SafetyAnalysis.mk "t" 90 [⟨"Missing Helmet", .PPE, .LOW, some 30⟩]
        "s" false).hazards
    ∧ confOf ⟨"Missing Helmet", .PPE, .LOW, some 30⟩ ≥
        claimedThreshold thrPpeZero Category.PPE
    ∧ (⟨"Missing Helmet", .PPE, .LOW, some 30⟩ : Hazard) ∉
        (filterAnalysis thrPpeZero
          (SafetyAnalysis.mk "t" 90 [⟨"Missing Helmet", .PPE, .LOW, some 30⟩]
            "s" false)).hazards := by
  refine ⟨by decide, by decide, by decide⟩

/-- C4 amended: the filter keeps exactly the hazards whose confidence
(undefined treated as 100) is at least the effective threshold, which is the
mapped value when nonzero and 50 when the category is unmapped or mapped to
0; at the boundary with the default PPE threshold 60, confidence 59 is
removed and confidence 60 is retained. -/
theorem c4_filter_characterization (thr : Category → Option Int)
    (r : SafetyAnalysis) :
    (∀ h : Hazard, h ∈ (filterAnalysis thr r).hazards ↔
        h ∈ r.hazards ∧ confOf h ≥ amendedThreshold thr h.category)
    ∧ (⟨"h", .PPE, .LOW, some 59⟩ : Hazard) ∉
        (filterAnalysis defaultCategoryThresholds
          (SafetyAnalysis.mk "t" 90 [⟨"h", .PPE, .LOW, some 59⟩] "s"
            true)).hazards
    ∧ (⟨"h", .PPE, .LOW, some 60⟩ : Hazard) ∈
        (filterAnalysis defaultCategoryThresholds
          (SafetyAnalysis.mk "t" 90 [⟨"h", .PPE, .LOW, some 60⟩] "s"
            true)).hazards := by
  refine ⟨?_, by decide, by decide⟩
  intro h
  simp [filterAnalysis, List.mem_filter, jsOr_eq_amendedThreshold]

/-- C10: a category whose configured minimum-confidence threshold is 0 is
filtered at 50, not 0: the falsy mapped value 0 falls back to the default
50, so a hazard with confidence 30 in that category is removed. -/
theorem c10_zero_threshold_filtered_at_50 (thr : Category → Option Int)
    (r : SafetyAnalysis) (h : Hazard)
    (hz : thr h.category = some 0) (hc : h.confidence = some 30) :
    jsOr (thr h.category) 50 = 50 ∧
      h ∉ (filterAnalysis thr r).hazards := by
  constructor
  · simp [jsOr, hz]
  · simp [filterAnalysis, List.mem_filter, jsOr, hz, confOf, hc]

/-- Witness for C10 at the concrete input of the claim: PPE threshold 0,
PPE hazard of confidence 30. -/
theorem c10_witness :
    thrPpeZero Category.PPE = some 0 ∧
    (Hazard.mk "Missing Helmet" .PPE .LOW (some 30)).confidence = some 30 ∧
    (jsOr (thrPpeZero (Hazard.mk "Missing Helmet" .PPE .LOW
        (some 30)).category) 50 = 50 ∧
      (Hazard.mk "Missing Helmet" .PPE .LOW (some 30)) ∉
        (filterAnalysis thrPpeZero
          (SafetyAnalysis.mk "t" 90
            [Hazard.mk "Missing Helmet" .PPE .LOW (some 30)] "s"
            false)).hazards) :=
  ⟨by decide, by decide,
    c10_zero_threshold_filtered_at_50 thrPpeZero
      (SafetyAnalysis.mk "t" 90
        [Hazard.mk "Missing Helmet" .PPE .LOW (some 30)] "s" false)
      (Hazard.mk "Missing Helmet" .PPE .LOW (some 30))
      (by decide) (by decide)⟩

/-- C6 counterexample: the raw gateway result carries a HIGH severity hazard
and every side condition of the claim holds (SMS enabled, phone number set,
cooldown elapsed), yet the SMS does not fire, because the hazard's
confidence 10 is below the PPE threshold 60 and checkAlerts receives the
filtered result. -/
theorem c6_counterexample :
    (c6Raw.hazards.filter (fun h => decide (h.severity = .HIGH))).length > 0
    ∧ c6Settings.smsEnabled = true
    ∧ c6Settings.phoneNumber ≠ ""
    ∧ (1000000 : Int) - (CheckState.mk false false 0).lastSmsTime > smsCooldown
    ∧ (processCycle c6Settings 1000000 ⟨false, false, 0⟩ c6Raw).smsSent
        = false := by
  refine ⟨by decide, by decide, by decide, by decide, by decide⟩

/-- C6 amended: the SMS side effect fires exactly when SMS is enabled, the
phone number is non-empty, at least one HIGH severity hazard survives the
confidence filter, and the 5 minute cooldown has elapsed; in particular it
is independent of the alarm flags and of whether the main alarm triggers. -/
theorem c6_sms_filtered_characterization (st : AlertSettings) (now : Int)
    (s : CheckState) (raw : SafetyAnalysis) :
    (processCycle st now s raw).smsSent = true ↔
      (st.smsEnabled = true ∧ st.phoneNumber ≠ "" ∧
        (∃ h ∈ (filterAnalysis st.categoryThresholds raw).hazards,
          h.severity = .HIGH) ∧
        now - s.lastSmsTime > smsCooldown) := by
  simp only [processCycle, checkAlerts, Bool.and_eq_true, decide_eq_true_eq,
    ne_eq, List.length_pos, List.filter_eq_nil_iff, not_forall, not_not]
  constructor
  · rintro ⟨⟨⟨he, hp⟩, ⟨h, hmem, hsev⟩⟩, hgap⟩
    exact ⟨he, hp, ⟨h, hmem, hsev⟩, hgap⟩
  · rintro ⟨he, hp, ⟨h, hmem, hsev⟩, hgap⟩
    exact ⟨⟨⟨he, hp⟩, ⟨h, hmem, hsev⟩⟩, hgap⟩

/-- If checkAlerts fired the SMS, the cooldown had elapsed. -/
lemma checkAlerts_sent_gap (st : AlertSettings) (now : Int) (s : CheckState)
    (a : SafetyAnalysis) (h : (checkAlerts st now s a).smsSent = true) :
    now - s.lastSmsTime > smsCooldown := by
  simp only [checkAlerts, Bool.and_eq_true, decide_eq_true_eq] at h
  exact h.2

/-- The lastSmsTime after checkAlerts: the current time when the SMS fired,
unchanged otherwise. -/
lemma checkAlerts_lastSmsTime (st : AlertSettings) (now : Int)
    (s : CheckState) (a : SafetyAnalysis) :
    (checkAlerts st now s a).lastSmsTime =
      if (checkAlerts st now s a).smsSent then now else s.lastSmsTime := rfl

/-- Every SMS timestamp produced by a run lies strictly beyond the cooldown
window of the initial lastSmsTime. -/
lemma smsRun_mem_gt (st : AlertSettings) :
    ∀ (evs : List (Int × SafetyAnalysis)) (s : CheckState) (x : Int),
      x ∈ smsRun st evs s → s.lastSmsTime + smsCooldown < x := by
  intro evs
  induction evs with
  | nil => intro s x hx; simp [smsRun] at hx
  | cons ev rest ih =>
    intro s x hx
    obtain ⟨t, a⟩ := ev
    rw [smsRun] at hx
    by_cases hsent : (checkAlerts st t s a).smsSent = true
    · rw [if_pos hsent] at hx
      have hgap := checkAlerts_sent_gap st t s a hsent
      rcases List.mem_cons.mp hx with rfl | hx
      · omega
      · have := ih ((checkAlerts st t s a).toState) x hx
        have hlast : ((checkAlerts st t s a).toState).lastSmsTime = t := by
          simp [CheckResult.toState, checkAlerts_lastSmsTime, hsent]
        rw [hlast] at this
        have hpos : (0 : Int) < smsCooldown := by decide
        omega
    · rw [if_neg hsent] at hx
      have := ih ((checkAlerts st t s a).toState) x hx
      have hlast : ((checkAlerts st t s a).toState).lastSmsTime
          = s.lastSmsTime := by
        simp [CheckResult.toState, checkAlerts_lastSmsTime, hsent]
      rw [hlast] at this
      exact this

/-- C5: any two SMS timestamps of any run are separated by more than the 5
minute cooldown, and the concrete scenario of a qualifying frame every 5
seconds for 10 minutes produces exactly two notifications. -/
theorem c5_sms_cooldown :
    (∀ (st : AlertSettings) (evs : List (Int × SafetyAnalysis))
        (s : CheckState),
      (smsRun st evs s).Pairwise (fun x y => x + smsCooldown < y))
    ∧ smsRun smsDemoSettings demoTicks ⟨false, false, 0⟩
        = [1000000, 1305000] := by
  constructor
  · intro st evs
    induction evs with
    | nil => intro s; simp [smsRun]
    | cons ev rest ih =>
      intro s
      obtain ⟨t, a⟩ := ev
      rw [smsRun]
      by_cases hsent : (checkAlerts st t s a).smsSent = true
      · rw [if_pos hsent]
        refine List.pairwise_cons.mpr ⟨?_, ih _⟩
        intro y hy
        have := smsRun_mem_gt st rest ((checkAlerts st t s a).toState) y hy
        have hlast : ((checkAlerts st t s a).toState).lastSmsTime = t := by
          simp [CheckResult.toState, checkAlerts_lastSmsTime, hsent]
        rw [hlast] at this
        exact this
      · rw [if_neg hsent]
        exact ih _
  · decide

/-- C3: the mutual exclusion claim fails on the code. Monitoring starts
with isAnalyzing false frozen into the interval closure, so two ticks
inside one latency window (5 second multi-camera interval against up to 15
seconds of gateway latency, no completion in between) both pass the line
319 guard: two overlapping gateway calls where the claim promises exactly
one, and every further tick piles on another unresolved call. -/
theorem c3_stale_busy_flag :
    (staleRun 1 false [.tick true, .tick true] ⟨0, 0⟩).callsStarted = 2
    ∧ (staleRun 1 false [.tick true, .tick true] ⟨0, 0⟩).callsInFlight = 2
    ∧ (staleRun 1 false (List.replicate 10 (.tick true))
        ⟨0, 0⟩).callsInFlight = 10 := by
  decide

/-- jsOr with default 0 returns the stored value. -/
lemma jsOr_some_zero (n : Int) : jsOr (some n) 0 = n := by
  show (if n = 0 then (0 : Int) else n) = n
  split
  · rename_i h
    omega
  · rfl

/-- jsOr on a missing key gives the default. -/
lemma jsOr_none (d : Int) : jsOr none d = d := rfl

set_option maxHeartbeats 1000000 in
/-- C7 counterexample: with the multiplier 15 actually in the source, a HIGH
severity camera checked just now loses to a SAFE camera checked 60 seconds
earlier (priority 45 against 60), so the claimed selection of the HIGH
camera fails. -/
theorem c7_counterexample :
    hzC7 "B" = some 3 ∧ hzC7 "A" = some 0
    ∧ lcC7 "A" = some 0 ∧ lcC7 "B" = some 60000
    ∧ getNextSmartCamera 60000 lcC7 hzC7 ["A", "B"] = "A"
    ∧ getNextSmartCamera 60000 lcC7 hzC7 ["A", "B"] ≠ "B" := by
  have hsel : getNextSmartCamera 60000 lcC7 hzC7 ["A", "B"] = "A" := by
    simp only [getNextSmartCamera, selectLoop, lcC7, hzC7, jsOr_some_zero,
      iff_false_intro (by decide : ("A" : String) ≠ "B"),
      iff_false_intro (by decide : ("B" : String) ≠ "A"),
      iff_true_intro (rfl : ("A" : String) = "A"),
      iff_true_intro (rfl : ("B" : String) = "B"),
      if_true, if_false, ite_true, ite_false]
    norm_num
  refine ⟨by decide, by decide, by decide, by decide, hsel, ?_⟩
  rw [hsel]
  decide

set_option maxHeartbeats 1000000 in
/-- C7 amended: the source multiplier is 15, so severity HIGH contributes
45 priority points: the HIGH camera checked just now is selected over a
SAFE camera whose last check is any gap below 45 seconds old, and loses
from 45 seconds on; in particular it wins at a 30 second gap and loses at
the 60 second gap of the claim. -/
theorem c7_severity_weight (g : Int) (hg : 0 ≤ g) :
    (g < 45000 →
      getNextSmartCamera g (fun id => if id = "A" then some 0 else some g)
        hzC7 ["A", "B"] = "B")
    ∧ (45000 ≤ g →
      getNextSmartCamera g (fun id => if id = "A" then some 0 else some g)
        hzC7 ["A", "B"] = "A") := by
  have hgq : (0 : ℚ) ≤ (g : ℚ) := by exact_mod_cast hg
  constructor
  · intro hcase
    have hc : (g : ℚ) < 45000 := by exact_mod_cast hcase
    simp only [getNextSmartCamera, selectLoop, hzC7, jsOr_some_zero,
      iff_false_intro (by decide : ("A" : String) ≠ "B"),
      iff_false_intro (by decide : ("B" : String) ≠ "A"),
      iff_true_intro (rfl : ("A" : String) = "A"),
      iff_true_intro (rfl : ("B" : String) = "B"),
      if_true, if_false, ite_true, ite_false]
    split_ifs <;> first
      | rfl
      | (exfalso
         push_cast at *
         linarith)
  · intro hcase
    have hc : (45000 : ℚ) ≤ (g : ℚ) := by exact_mod_cast hcase
    simp only [getNextSmartCamera, selectLoop, hzC7, jsOr_some_zero,
      iff_false_intro (by decide : ("A" : String) ≠ "B"),
      iff_false_intro (by decide : ("B" : String) ≠ "A"),
      iff_true_intro (rfl : ("A" : String) = "A"),
      iff_true_intro (rfl : ("B" : String) = "B"),
      if_true, if_false, ite_true, ite_false]
    split_ifs <;> first
      | rfl
      | (exfalso
         push_cast at *
         linarith)

set_option maxHeartbeats 1000000 in
/-- C8: the fairness claim fails on the code. The interval closure freezes
the cameraLastCheckTime and cameraHazardLevel records at their
monitoring-start values (empty records, every lookup falling back to 0),
so at every subsequent tick time the three priorities tie and the strict
comparison of the forEach loop keeps the first active camera: camera A is
selected on every tick while cameras B and C are never selected,
contradicting the claimed bounded selection window (and the source comment
that neglected cameras catch up after about 60 seconds). -/
theorem c8_stale_records_starvation (t : Int) (ht : 0 ≤ t) :
    getNextSmartCamera t emptyRecord emptyRecord cams3 = "A"
    ∧ getNextSmartCamera t emptyRecord emptyRecord cams3 ≠ "B"
    ∧ getNextSmartCamera t emptyRecord emptyRecord cams3 ≠ "C" := by
  have hq : (0 : ℚ) ≤ (t : ℚ) := by exact_mod_cast ht
  have hsel : getNextSmartCamera t emptyRecord emptyRecord cams3 = "A" := by
    simp only [getNextSmartCamera, cams3, selectLoop, emptyRecord, jsOr_none]
    split_ifs <;> first
      | rfl
      | (exfalso
         push_cast at *
         linarith)
  refine ⟨hsel, ?_, ?_⟩ <;> rw [hsel] <;> decide

/-- Witness for C8 at t = 60000 ms: even after the 60 seconds at which the
source comment promises neglected cameras catch up, camera A is still the
one selected. -/
theorem c8_starvation_witness :
    (0 : Int) ≤ 60000 ∧
    (getNextSmartCamera 60000 emptyRecord emptyRecord cams3 = "A"
    ∧ getNextSmartCamera 60000 emptyRecord emptyRecord cams3 ≠ "B"
    ∧ getNextSmartCamera 60000 emptyRecord emptyRecord cams3 ≠ "C") :=
  ⟨by decide, c8_stale_records_starvation 60000 (by decide)⟩

/-- C9: analyzeSafetyImage is total over all gateway outcomes, the watchdog
timeout yields the sentinel result (safetyScore -1, isSafe true, empty
hazards), any other error message yields the generic zero-score result, and
the two are distinguishable by their scores. -/
theorem c9_timeout_sentinel (ts : String) (m : String)
    (hm1 : strIncludes m "UNAUTHORIZED" = false)
    (hm2 : m ≠ "REQUEST_TIMEOUT") :
    ((analyzeSafetyImage true true ts .timeout).safetyScore = -1
      ∧ (analyzeSafetyImage true true ts .timeout).isSafe = true
      ∧ (analyzeSafetyImage true true ts .timeout).hazards = [])
    ∧ (analyzeSafetyImage true true ts (.failure m)).safetyScore = 0
    ∧ (analyzeSafetyImage true true ts .timeout).safetyScore ≠
        (analyzeSafetyImage true true ts (.failure m)).safetyScore := by
  have hto : strIncludes "REQUEST_TIMEOUT" "UNAUTHORIZED" = false := by decide
  refine ⟨⟨?_, ?_, ?_⟩, ?_, ?_⟩ <;>
    simp [analyzeSafetyImage, catchHandler, hto, hm1, hm2]

/-- Witness for C9 with the generic error message boom. -/
theorem c9_witness :
    strIncludes "boom" "UNAUTHORIZED" = false
    ∧ ("boom" : String) ≠ "REQUEST_TIMEOUT"
    ∧ (((analyzeSafetyImage true true "t" .timeout).safetyScore = -1
      ∧ (analyzeSafetyImage true true "t" .timeout).isSafe = true
      ∧ (analyzeSafetyImage true true "t" .timeout).hazards = [])
    ∧ (analyzeSafetyImage true true "t" (.failure "boom")).safetyScore = 0
    ∧ (analyzeSafetyImage true true "t" .timeout).safetyScore ≠
        (analyzeSafetyImage true true "t" (.failure "boom")).safetyScore) :=
  ⟨by decide, by decide,
    c9_timeout_sentinel "t" "boom" (by decide) (by decide)⟩

/-- Witness for C7 amended at the 30 second gap of the amended claim. -/
theorem c7_witness :
    (0 : Int) ≤ 30000 ∧
    (((30000 : Int) < 45000 →
      getNextSmartCamera 30000
        (fun id => if id = "A" then some 0 else some 30000)
        hzC7 ["A", "B"] = "B")
    ∧ (45000 ≤ (30000 : Int) →
      getNextSmartCamera 30000
        (fun id => if id = "A" then some 0 else some 30000)
        hzC7 ["A", "B"] = "A")) :=
  ⟨by decide, c7_severity_weight 30000 (by decide)⟩

end HSEGuardian
